import Mathlib

/-!
# Verification of `db/sql/csv_to_insert.py` (PikaClean)

A shallow embedding of the CSV → SQL `INSERT` converter
`csv_to_sql_insert(csv_file_path, output_file_path, table_name)` and of its
interactive entry point, together with proofs of the specification's claims.

Modelling notes:
* The file system is an association list from path to content; a write
  prepends, and reads return the most recent entry. Opening the output file
  with mode `w` is modelled by the state of the output path after the routine
  returns (the `with` block closes and flushes the file on every exit path).
* `csv.DictReader(csv_file, delimiter=';')` is modelled for inputs that use
  `\n` line terminators and contain no CSV quote character: each line is split
  on `;`, the first line is the header (`fieldnames`), blank lines after the
  header are skipped (as `DictReader.__next__` does), and `row[col]` follows
  `dict(zip(fieldnames, row))` with missing trailing fields filled with the
  `restval` default `None` — so `row[col]` is an `Option String`, `none`
  standing for Python's `None`.
* `str(value)` on such a value is `pyStr`; `value.replace("'", "''")` on
  `None` raises `AttributeError`, modelled as an `Except` error, and on a
  string is `escapeQuotes`.
-/

/-- A file system: association list from path to content.  `write` prepends,
`read` returns the most recent entry for the path. -/
abbrev FS := List (String × String)

/-- Read the content at a path, `none` when no file exists there. -/
def FS.read : FS → String → Option String
  | [], _ => none
  | (p, c) :: rest, q => if q = p then some c else FS.read rest q

/-- Create or overwrite the file at a path. -/
def FS.write (fs : FS) (p c : String) : FS :=
  (p, c) :: fs

/-- Split a character list at every occurrence of `sep` (model of Python's
single-character field/line splitting; never returns `[]`). -/
def splitOnChar (sep : Char) : List Char → List (List Char)
  | [] => [[]]
  | c :: cs =>
    if c = sep then [] :: splitOnChar sep cs
    else
      match splitOnChar sep cs with
      | [] => [[c]]
      | w :: ws => (c :: w) :: ws

/-- The single-quote character `'`, written by code point to keep source
strings free of bare quote characters. -/
def quoteChar : Char := Char.ofNat 39

/-- One line as the `csv` module reads it with `delimiter=';'`: a blank line
is the empty record `[]`, any other line is split on `;`. -/
def parseLine (line : List Char) : List String :=
  if line = [] then [] else (splitOnChar (Char.ofNat 59) line).map String.mk

/-- `csv.DictReader` applied to the whole input: the first record is
`fieldnames` (`[]` both for an empty file and for a blank first line, matching
the falsy `None`/`[]` cases of the Python code), the remaining non-blank
records are the data rows. -/
def parseCSV (content : String) : List String × List (List String) :=
  match (splitOnChar (Char.ofNat 10) content.data).map parseLine with
  | [] => ([], [])
  | first :: rest => (first, rest.filter (fun r => !r.isEmpty))

/-- Index of the last occurrence of `a` in `l` (the occurrence that wins in
`dict(zip(fieldnames, row))` when a column name repeats). -/
def lastIdxOf : List String → String → Option Nat
  | [], _ => none
  | x :: xs, a =>
    match lastIdxOf xs a with
    | some i => some (i + 1)
    | none => if x = a then some 0 else none

/-- `row[col]` for a `DictReader` row: `dict(zip(fieldnames, row))` with the
fieldnames beyond `len(row)` filled with `restval = None`.  The result `none`
is Python's `None`. -/
def dictZipLookup (columns fields : List String) (col : String) : Option String :=
  match lastIdxOf columns col with
  | none => none
  | some i => fields.get? i

/-- Python `str` on a value that is either a string or `None`. -/
def pyStr : Option String → String
  | some s => s
  | none => "None"

/-- Python `s.replace(pat, repl)` for a one-character pattern: each
occurrence of `pat` is replaced by `repl`. -/
def replaceChar (pat : Char) (repl : List Char) : List Char → List Char
  | [] => []
  | c :: cs =>
    if c = pat then repl ++ replaceChar pat repl cs
    else c :: replaceChar pat repl cs

/-- `value.replace("'", "''")`: double every single quote. -/
def escapeQuotes (s : String) : String :=
  String.mk (replaceChar quoteChar [quoteChar, quoteChar] s.data)

/-- `f"'{escaped_value}'"`: wrap in one pair of single quotes. -/
def quoteWrap (s : String) : String :=
  String.mk (quoteChar :: (s.data ++ [quoteChar]))

/-- The hard-coded allowlist `['status', 'rate']` of unquoted columns. -/
def NumericColumns : List String := ["status", "rate"]

/-- The body of the per-column branch: `str(value)` for an allowlisted
column; otherwise escape-and-quote, which raises `AttributeError` when the
value is `None` (`None.replace` does not exist). -/
def formatValue (col : String) (value : Option String) : Except String String :=
  if col ∈ NumericColumns then .ok (pyStr value)
  else
    match value with
    | some v => .ok (quoteWrap (escapeQuotes v))
    | none => .error "AttributeError"

/-- A Python `for` loop building a list, aborting at the first exception. -/
def mapExcept (f : α → Except String β) : List α → Except String (List β)
  | [] => .ok []
  | a :: as =>
    match f a with
    | .error e => .error e
    | .ok b =>
      match mapExcept f as with
      | .error e => .error e
      | .ok bs => .ok (b :: bs)

/-- Python `sep.flatten(strings)`. -/
def joinSep (sep : String) : List String → String
  | [] => ""
  | [s] => s
  | s :: rest => s ++ sep ++ joinSep sep rest

/-- One value tuple `f"({', '.flatten(values)})"` for one data row, the values
taken in header-column order. -/
def formatRow (columns fields : List String) : Except String String :=
  match mapExcept (fun col => formatValue col (dictZipLookup columns fields col)) columns with
  | .error e => .error e
  | .ok values => .ok ("(" ++ joinSep ", " values ++ ")")

/-- `f"INSERT INTO {table_name} ({', '.flatten(columns)}) VALUES\n"`. -/
def headerLine (table : String) (columns : List String) : String :=
  "INSERT INTO " ++ table ++ " (" ++ joinSep ", " columns ++ ") VALUES\n"

/-- The printed outcome of one invocation: the success message naming the
output path, the `FileNotFoundError` handler, or the generic handler
printing the exception text. -/
inductive ConvResult where
  | success (outPath : String)
  | fileNotFound (path : String)
  | errorMsg (msg : String)
deriving DecidableEq, Repr

/-- `csv_to_sql_insert(csv_file_path, output_file_path, table_name)`.

Effect order follows the source: the input file is opened first (missing
input leaves the file system untouched); the output file is then opened with
mode `w`, truncating it before the header check; the `INSERT ... VALUES`
line is written before the row loop; the rows are buffered and written after
the loop, so a row failure leaves exactly the header line in the output. -/
def csv_to_sql_insert (fs : FS) (csvPath outPath table : String) : FS × ConvResult :=
  match fs.read csvPath with
  | none => (fs, .fileNotFound csvPath)
  | some content =>
    let columns := (parseCSV content).1
    let dataRows := (parseCSV content).2
    if columns = [] then
      (fs.write outPath "", .errorMsg "CSV file has no headers")
    else
      match mapExcept (formatRow columns) dataRows with
      | .error e => (fs.write outPath (headerLine table columns), .errorMsg e)
      | .ok tuples =>
        (fs.write outPath (headerLine table columns ++ joinSep ",\n" tuples ++ ";"),
         .success outPath)

/-- The `__main__` entry point: it pre-checks `os.path.exists(input_csv)` and
short-circuits with the not-found message before calling the converter. -/
def mainEntry (fs : FS) (inputCsv outputSql table : String) : FS × ConvResult :=
  if (fs.read inputCsv).isNone then (fs, .fileNotFound inputCsv)
  else csv_to_sql_insert fs inputCsv outputSql table

/-! ## Basic lemmas about the embedding -/

theorem FS.read_write_self (fs : FS) (p c : String) :
    (fs.write p c).read p = some c := by
  simp [FS.read, FS.write]

theorem mapExcept_ok_length {α β : Type} {f : α → Except String β} :
    ∀ {l : List α} {bs : List β}, mapExcept f l = .ok bs → bs.length = l.length := by
  intro l
  induction l with
  | nil =>
    intro bs h
    simp only [mapExcept, Except.ok.injEq] at h
    simp [← h]
  | cons a as ih =>
    intro bs h
    simp only [mapExcept] at h
    cases hfa : f a with
    | error e => rw [hfa] at h; exact absurd h (by simp)
    | ok b =>
      rw [hfa] at h
      cases hrest : mapExcept f as with
      | error e => rw [hrest] at h; exact absurd h (by simp)
      | ok bs' =>
        rw [hrest] at h
        simp only [Except.ok.injEq] at h
        subst h
        simp [ih hrest]

theorem mapExcept_ok_get {α β : Type} {f : α → Except String β} :
    ∀ {l : List α} {bs : List β}, mapExcept f l = .ok bs →
      ∀ (i : Nat) (h : i < l.length) (h' : i < bs.length),
        f (l.get ⟨i, h⟩) = .ok (bs.get ⟨i, h'⟩) := by
  intro l
  induction l with
  | nil => intro bs _ i h; exact absurd h (by simp)
  | cons a as ih =>
    intro bs h i hi hi'
    simp only [mapExcept] at h
    cases hfa : f a with
    | error e => rw [hfa] at h; exact absurd h (by simp)
    | ok b =>
      rw [hfa] at h
      cases hrest : mapExcept f as with
      | error e => rw [hrest] at h; exact absurd h (by simp)
      | ok bs' =>
        rw [hrest] at h
        simp only [Except.ok.injEq] at h
        subst h
        cases i with
        | zero => simpa using hfa
        | succ j =>
          exact ih hrest j (Nat.lt_of_succ_lt_succ hi) (Nat.lt_of_succ_lt_succ hi')

theorem mapExcept_ok_of_forall {α β : Type} {f : α → Except String β} :
    ∀ {l : List α}, (∀ a ∈ l, ∃ b, f a = .ok b) →
      ∃ bs, mapExcept f l = .ok bs := by
  intro l
  induction l with
  | nil => intro _; exact ⟨[], rfl⟩
  | cons a as ih =>
    intro h
    obtain ⟨b, hb⟩ := h a (List.mem_cons_self a as)
    obtain ⟨bs, hbs⟩ := ih (fun x hx => h x (List.mem_cons_of_mem a hx))
    exact ⟨b :: bs, by simp [mapExcept, hb, hbs]⟩

theorem mapExcept_error_of_mem {α β : Type} {f : α → Except String β} :
    ∀ {l : List α} {a : α} {e : String}, a ∈ l → f a = .error e →
      ∃ e', mapExcept f l = .error e' := by
  intro l
  induction l with
  | nil => intro a e h; exact absurd h (by simp)
  | cons b bs ih =>
    intro a e hmem hfa
    cases hfb : f b with
    | error e' => exact ⟨e', by simp [mapExcept, hfb]⟩
    | ok v =>
      rcases List.mem_cons.mp hmem with heq | hmem'
      · subst heq; rw [hfa] at hfb; exact absurd hfb (by simp)
      · obtain ⟨e', he'⟩ := ih hmem' hfa
        exact ⟨e', by simp [mapExcept, hfb, he']⟩

theorem formatValue_ok_of_some (col v : String) :
    ∃ s, formatValue col (some v) = .ok s := by
  by_cases h : col ∈ NumericColumns
  · exact ⟨pyStr (some v), by simp [formatValue, h]⟩
  · exact ⟨quoteWrap (escapeQuotes v), by simp [formatValue, h]⟩

theorem formatRow_ok_of_wf (columns fields : List String)
    (hwf : ∀ col ∈ columns, dictZipLookup columns fields col ≠ none) :
    ∃ s, formatRow columns fields = .ok s := by
  have : ∀ col ∈ columns,
      ∃ s, formatValue col (dictZipLookup columns fields col) = .ok s := by
    intro col hcol
    cases hv : dictZipLookup columns fields col with
    | none => exact absurd hv (hwf col hcol)
    | some v => exact formatValue_ok_of_some col v
  obtain ⟨values, hvalues⟩ := mapExcept_ok_of_forall this
  exact ⟨"(" ++ joinSep ", " values ++ ")", by simp [formatRow, hvalues]⟩

theorem formatRow_error_of_missing (columns fields : List String) (col : String)
    (hcol : col ∈ columns) (hnum : col ∉ NumericColumns)
    (hmiss : dictZipLookup columns fields col = none) :
    ∃ e, formatRow columns fields = .error e := by
  have herr : formatValue col (dictZipLookup columns fields col) = .error "AttributeError" := by
    rw [hmiss]; simp [formatValue, hnum]
  obtain ⟨e', he'⟩ :=
    mapExcept_error_of_mem (f := fun c => formatValue c (dictZipLookup columns fields c)) hcol herr
  exact ⟨e', by simp [formatRow, he']⟩

/-! ## Claim theorems -/

/-- The two-line input of the spec's worked example. -/
def c1Input : String :=
  "id;worker_id;user_id;status;deadline;address;creation_date;rate\n1;7;3;1;2024-01-01;O'Hara St;2023-12-01;9.5"

/-- The exact output text the spec's worked example requires. -/
def c1Expected : String :=
  "INSERT INTO orders (id, worker_id, user_id, status, deadline, address, creation_date, rate) VALUES\n('1', '7', '3', 1, '2024-01-01', 'O''Hara St', '2023-12-01', 9.5);"

set_option maxRecDepth 40000 in
/-- C1: on the spec's worked example (header
`id;worker_id;user_id;status;deadline;address;creation_date;rate`, one data
row, table `orders`) the converter succeeds and writes exactly the expected
`INSERT` statement to the output file. -/
theorem c1_concrete_example :
    csv_to_sql_insert [("orders.csv", c1Input)] "orders.csv" "orders.sql" "orders" =
      ([("orders.sql", c1Expected), ("orders.csv", c1Input)], .success "orders.sql") ∧
    FS.read (csv_to_sql_insert [("orders.csv", c1Input)] "orders.csv" "orders.sql" "orders").1
        "orders.sql" = some c1Expected := by
  decide

/-- C3: for a column named `status` or `rate`, the emitted value is the raw
input value, unmodified, with no quotes and no quote-doubling, whatever the
value is. -/
theorem c3_numeric_raw (col v : String) (h : col ∈ NumericColumns) :
    formatValue col (some v) = .ok v := by
  simp [formatValue, h, pyStr]

theorem c3_numeric_raw_witness :
    "status" ∈ NumericColumns ∧
      formatValue "status" (some "not-a-number") = .ok "not-a-number" :=
  ⟨by decide, c3_numeric_raw "status" "not-a-number" (by decide)⟩

/-- C8: on a nonexistent input path both the conversion routine and the
interactive entry point report file-not-found and leave the file system — in
particular the output path — untouched. -/
theorem c8_input_not_found (fs : FS) (p o t : String) (hread : fs.read p = none) :
    csv_to_sql_insert fs p o t = (fs, .fileNotFound p) ∧
    mainEntry fs p o t = (fs, .fileNotFound p) ∧
    FS.read (csv_to_sql_insert fs p o t).1 o = fs.read o := by
  have h1 : csv_to_sql_insert fs p o t = (fs, .fileNotFound p) := by
    simp [csv_to_sql_insert, hread]
  exact ⟨h1, by simp [mainEntry, hread], by rw [h1]⟩

theorem c8_input_not_found_witness :
    FS.read [] "missing.csv" = none ∧
      (csv_to_sql_insert [] "missing.csv" "out.sql" "orders" =
          ([], .fileNotFound "missing.csv") ∧
        mainEntry [] "missing.csv" "out.sql" "orders" =
          ([], .fileNotFound "missing.csv") ∧
        FS.read (csv_to_sql_insert [] "missing.csv" "out.sql" "orders").1 "out.sql" =
          FS.read [] "out.sql") :=
  ⟨by decide, c8_input_not_found [] "missing.csv" "out.sql" "orders" (by decide)⟩

/-- C6 counterexample: on an empty input file the converter does report the
malformed-input condition, but a file IS created at the output path (the
output is opened with mode `w` before the header check): starting from a
file system with no `out.sql`, after the run `out.sql` exists with empty
content. -/
theorem c6_counterexample :
    FS.read [("in.csv", "")] "out.sql" = none ∧
    (csv_to_sql_insert [("in.csv", "")] "in.csv" "out.sql" "orders").2 =
      .errorMsg "CSV file has no headers" ∧
    FS.read (csv_to_sql_insert [("in.csv", "")] "in.csv" "out.sql" "orders").1 "out.sql" =
      some "" := by
  decide

/-- C6 (amended): on an input with no header columns the converter reports
the malformed-input condition (`CSV file has no headers`) and writes no
content, but the output file is created (truncated to empty), because the
output is opened for writing before the header check. -/
theorem c6_amended_empty_header (fs : FS) (p o t content : String)
    (hread : fs.read p = some content)
    (hcols : (parseCSV content).1 = []) :
    csv_to_sql_insert fs p o t = (fs.write o "", .errorMsg "CSV file has no headers") ∧
    FS.read (csv_to_sql_insert fs p o t).1 o = some "" := by
  have h1 : csv_to_sql_insert fs p o t = (fs.write o "", .errorMsg "CSV file has no headers") := by
    simp [csv_to_sql_insert, hread, hcols]
  exact ⟨h1, by rw [h1]; exact FS.read_write_self fs o ""⟩

theorem c6_amended_empty_header_witness :
    (FS.read [("in.csv", "")] "in.csv" = some "" ∧ (parseCSV "").1 = []) ∧
      (csv_to_sql_insert [("in.csv", "")] "in.csv" "out.sql" "orders" =
          (FS.write [("in.csv", "")] "out.sql" "", .errorMsg "CSV file has no headers") ∧
        FS.read (csv_to_sql_insert [("in.csv", "")] "in.csv" "out.sql" "orders").1 "out.sql" =
          some "") :=
  ⟨⟨by decide, by decide⟩,
    c6_amended_empty_header [("in.csv", "")] "in.csv" "out.sql" "orders" "" (by decide) (by decide)⟩

set_option maxRecDepth 40000 in
/-- C7 counterexample: the data row `1` lacks a value for header column
`rate`, yet the conversion SUCCEEDS (the missing value is `None`, which the
allowlisted `rate` branch stringifies to the bare text `None`), writing
`('1', None)` and printing the success message. -/
theorem c7_counterexample :
    parseCSV "id;rate\n1" = (["id", "rate"], [["1"]]) ∧
    dictZipLookup ["id", "rate"] ["1"] "rate" = none ∧
    csv_to_sql_insert [("in.csv", "id;rate\n1")] "in.csv" "out.sql" "t" =
      ([("out.sql", "INSERT INTO t (id, rate) VALUES\n('1', None);"),
        ("in.csv", "id;rate\n1")],
       .success "out.sql") := by
  decide

/-- C7 (amended): the conversion fails (the generic handler reports the
error, no success message) when some data row lacks a value for some header
column that is NOT named `status` or `rate`; a missing value for `status` or
`rate` is instead emitted as the bare text `None` and conversion succeeds. -/
theorem c7_amended_missing_value (fs : FS) (p o t content : String)
    (hread : fs.read p = some content)
    (hcols : (parseCSV content).1 ≠ [])
    (hmiss : ∃ fields ∈ (parseCSV content).2, ∃ col ∈ (parseCSV content).1,
        col ∉ NumericColumns ∧ dictZipLookup (parseCSV content).1 fields col = none) :
    ∃ e, csv_to_sql_insert fs p o t =
      (fs.write o (headerLine t (parseCSV content).1), .errorMsg e) := by
  obtain ⟨fields, hfmem, col, hcmem, hnum, hnone⟩ := hmiss
  obtain ⟨e, he⟩ := formatRow_error_of_missing (parseCSV content).1 fields col hcmem hnum hnone
  obtain ⟨e', he'⟩ := mapExcept_error_of_mem (f := formatRow (parseCSV content).1) hfmem he
  exact ⟨e', by simp [csv_to_sql_insert, hread, hcols, he']⟩

theorem c7_amended_missing_value_witness :
    (FS.read [("in.csv", "id;address\n1")] "in.csv" = some "id;address\n1" ∧
      (parseCSV "id;address\n1").1 ≠ [] ∧
      ∃ fields ∈ (parseCSV "id;address\n1").2, ∃ col ∈ (parseCSV "id;address\n1").1,
        col ∉ NumericColumns ∧
          dictZipLookup (parseCSV "id;address\n1").1 fields col = none) ∧
    ∃ e, csv_to_sql_insert [("in.csv", "id;address\n1")] "in.csv" "out.sql" "t" =
      (FS.write [("in.csv", "id;address\n1")] "out.sql"
          (headerLine "t" (parseCSV "id;address\n1").1),
       .errorMsg e) :=
  ⟨⟨by decide, by decide, by decide⟩,
    c7_amended_missing_value [("in.csv", "id;address\n1")] "in.csv" "out.sql" "t"
      "id;address\n1" (by decide) (by decide) (by decide)⟩

/-- C10: when the header parses (non-empty columns) but row processing
fails, the output file exists and contains exactly the already-written
`INSERT ... VALUES` header line: the output is opened (truncated) at entry
and the header line is written before the row loop, while the buffered rows
are never written. -/
theorem c10_header_written_on_row_failure (fs : FS) (p o t content : String)
    (hread : fs.read p = some content)
    (hcols : (parseCSV content).1 ≠ [])
    (herr : ∃ e, mapExcept (formatRow (parseCSV content).1) (parseCSV content).2 = .error e) :
    (∃ e, csv_to_sql_insert fs p o t =
        (fs.write o (headerLine t (parseCSV content).1), .errorMsg e)) ∧
    FS.read (csv_to_sql_insert fs p o t).1 o = some (headerLine t (parseCSV content).1) := by
  obtain ⟨e, he⟩ := herr
  have h1 : csv_to_sql_insert fs p o t =
      (fs.write o (headerLine t (parseCSV content).1), .errorMsg e) := by
    simp [csv_to_sql_insert, hread, hcols, he]
  exact ⟨⟨e, h1⟩, by rw [h1]; exact FS.read_write_self fs o (headerLine t (parseCSV content).1)⟩

theorem c10_header_written_on_row_failure_witness :
    (FS.read [("in.csv", "a;b\nx")] "in.csv" = some "a;b\nx" ∧
      (parseCSV "a;b\nx").1 ≠ [] ∧
      ∃ e, mapExcept (formatRow (parseCSV "a;b\nx").1) (parseCSV "a;b\nx").2 = .error e) ∧
    ((∃ e, csv_to_sql_insert [("in.csv", "a;b\nx")] "in.csv" "out.sql" "t" =
        (FS.write [("in.csv", "a;b\nx")] "out.sql" (headerLine "t" (parseCSV "a;b\nx").1),
         .errorMsg e)) ∧
      FS.read (csv_to_sql_insert [("in.csv", "a;b\nx")] "in.csv" "out.sql" "t").1 "out.sql" =
        some (headerLine "t" (parseCSV "a;b\nx").1)) :=
  ⟨⟨by decide, by decide, ⟨"AttributeError", by rfl⟩⟩,
    c10_header_written_on_row_failure [("in.csv", "a;b\nx")] "in.csv" "out.sql" "t"
      "a;b\nx" (by decide) (by decide) ⟨"AttributeError", by rfl⟩⟩

/-- Characterisation of the quote escaping: each quote becomes two quotes,
every other character is kept as it is. -/
theorem replaceChar_quote_join (l : List Char) :
    replaceChar quoteChar [quoteChar, quoteChar] l =
      (l.map (fun c => if c = quoteChar then [quoteChar, quoteChar] else [c])).flatten := by
  induction l with
  | nil => rfl
  | cons c cs ih => by_cases h : c = quoteChar <;> simp [replaceChar, h, ih]

/-- Escaping doubles the number of single-quote characters. -/
theorem replaceChar_quote_count (l : List Char) :
    (replaceChar quoteChar [quoteChar, quoteChar] l).count quoteChar =
      2 * l.count quoteChar := by
  induction l with
  | nil => rfl
  | cons c cs ih =>
    by_cases h : c = quoteChar
    · subst h
      simp [replaceChar, List.count_cons, ih]
      ring
    · simp [replaceChar, h, List.count_cons, ih]

/-- C2: for every value of a column not named `status` or `rate`, the
emitted value is the escaped raw value wrapped in exactly one pair of outer
single quotes, where escaping maps each embedded single quote to two single
quotes and keeps every other character; in particular the escaped value
contains twice as many single quotes as the raw value. -/
theorem c2_quoted_escaped (col v : String) (h : col ∉ NumericColumns) :
    formatValue col (some v) = .ok (quoteWrap (escapeQuotes v)) ∧
    (quoteWrap (escapeQuotes v)).data = quoteChar :: ((escapeQuotes v).data ++ [quoteChar]) ∧
    (escapeQuotes v).data =
      (v.data.map (fun c => if c = quoteChar then [quoteChar, quoteChar] else [c])).flatten ∧
    (escapeQuotes v).data.count quoteChar = 2 * v.data.count quoteChar := by
  refine ⟨by simp [formatValue, h], rfl, ?_, ?_⟩
  · simpa [escapeQuotes] using replaceChar_quote_join v.data
  · simpa [escapeQuotes] using replaceChar_quote_count v.data

theorem c2_quoted_escaped_witness :
    "address" ∉ NumericColumns ∧
      (formatValue "address" (some "O'Hara St") = .ok (quoteWrap (escapeQuotes "O'Hara St")) ∧
        (quoteWrap (escapeQuotes "O'Hara St")).data =
          quoteChar :: ((escapeQuotes "O'Hara St").data ++ [quoteChar]) ∧
        (escapeQuotes "O'Hara St").data =
          ((String.data "O'Hara St").map
              (fun c => if c = quoteChar then [quoteChar, quoteChar] else [c])).flatten ∧
        (escapeQuotes "O'Hara St").data.count quoteChar =
          2 * (String.data "O'Hara St").count quoteChar) :=
  ⟨by decide, c2_quoted_escaped "address" "O'Hara St" (by decide)⟩

/-- C4: for every well-formed input (header present and non-empty, every
data row supplying a value for every header column) the conversion succeeds
and the output is the header line followed by one parenthesized tuple per
data row, the tuples joined with a comma-newline and the statement
terminated by a semicolon; the number of tuples equals the number of data
rows. -/
theorem c4_tuple_count (fs : FS) (p o t content : String)
    (hread : fs.read p = some content)
    (hcols : (parseCSV content).1 ≠ [])
    (hwf : ∀ fields ∈ (parseCSV content).2, ∀ col ∈ (parseCSV content).1,
        dictZipLookup (parseCSV content).1 fields col ≠ none) :
    ∃ tuples : List String,
      mapExcept (formatRow (parseCSV content).1) (parseCSV content).2 = .ok tuples ∧
      tuples.length = (parseCSV content).2.length ∧
      csv_to_sql_insert fs p o t =
        (fs.write o (headerLine t (parseCSV content).1 ++ joinSep ",\n" tuples ++ ";"),
         .success o) := by
  have hall : ∀ fields ∈ (parseCSV content).2,
      ∃ s, formatRow (parseCSV content).1 fields = .ok s :=
    fun fields hf => formatRow_ok_of_wf _ fields (hwf fields hf)
  obtain ⟨tuples, htuples⟩ := mapExcept_ok_of_forall hall
  exact ⟨tuples, htuples, mapExcept_ok_length htuples,
    by simp [csv_to_sql_insert, hread, hcols, htuples]⟩

theorem c4_tuple_count_witness :
    (FS.read [("in.csv", "a;b\nx;y\nu;v")] "in.csv" = some "a;b\nx;y\nu;v" ∧
      (parseCSV "a;b\nx;y\nu;v").1 ≠ [] ∧
      ∀ fields ∈ (parseCSV "a;b\nx;y\nu;v").2, ∀ col ∈ (parseCSV "a;b\nx;y\nu;v").1,
        dictZipLookup (parseCSV "a;b\nx;y\nu;v").1 fields col ≠ none) ∧
    ∃ tuples : List String,
      mapExcept (formatRow (parseCSV "a;b\nx;y\nu;v").1) (parseCSV "a;b\nx;y\nu;v").2 =
        .ok tuples ∧
      tuples.length = (parseCSV "a;b\nx;y\nu;v").2.length ∧
      csv_to_sql_insert [("in.csv", "a;b\nx;y\nu;v")] "in.csv" "out.sql" "t" =
        (FS.write [("in.csv", "a;b\nx;y\nu;v")] "out.sql"
            (headerLine "t" (parseCSV "a;b\nx;y\nu;v").1 ++ joinSep ",\n" tuples ++ ";"),
         .success "out.sql") :=
  ⟨⟨by decide, by decide, by decide⟩,
    c4_tuple_count [("in.csv", "a;b\nx;y\nu;v")] "in.csv" "out.sql" "t" "a;b\nx;y\nu;v"
      (by decide) (by decide) (by decide)⟩

/-- C5: the generated column list is the header columns joined in header
order, and in every value tuple for a well-formed row the values stand in
exactly that order: the i-th emitted value is the formatting of the i-th
header column's value. -/
theorem c5_header_order (columns fields : List String) (table : String)
    (hwf : ∀ col ∈ columns, dictZipLookup columns fields col ≠ none) :
    headerLine table columns =
      "INSERT INTO " ++ table ++ " (" ++ joinSep ", " columns ++ ") VALUES\n" ∧
    ∃ values : List String,
      formatRow columns fields = .ok ("(" ++ joinSep ", " values ++ ")") ∧
      values.length = columns.length ∧
      ∀ (i : Nat) (hi : i < columns.length) (hi' : i < values.length),
        formatValue (columns.get ⟨i, hi⟩)
            (dictZipLookup columns fields (columns.get ⟨i, hi⟩)) =
          .ok (values.get ⟨i, hi'⟩) := by
  refine ⟨rfl, ?_⟩
  have hall : ∀ col ∈ columns,
      ∃ s, formatValue col (dictZipLookup columns fields col) = .ok s := by
    intro col hcol
    cases hv : dictZipLookup columns fields col with
    | none => exact absurd hv (hwf col hcol)
    | some v => exact formatValue_ok_of_some col v
  obtain ⟨values, hvalues⟩ := mapExcept_ok_of_forall hall
  refine ⟨values, by simp [formatRow, hvalues], mapExcept_ok_length hvalues, ?_⟩
  intro i hi hi'
  exact mapExcept_ok_get hvalues i hi hi'

theorem c5_header_order_witness :
    (∀ col ∈ ["id", "status"], dictZipLookup ["id", "status"] ["5", "2"] col ≠ none) ∧
    (headerLine "t" ["id", "status"] =
        "INSERT INTO " ++ "t" ++ " (" ++ joinSep ", " ["id", "status"] ++ ") VALUES\n" ∧
      ∃ values : List String,
        formatRow ["id", "status"] ["5", "2"] = .ok ("(" ++ joinSep ", " values ++ ")") ∧
        values.length = (["id", "status"] : List String).length ∧
        ∀ (i : Nat) (hi : i < (["id", "status"] : List String).length)
            (hi' : i < values.length),
          formatValue ((["id", "status"] : List String).get ⟨i, hi⟩)
              (dictZipLookup ["id", "status"] ["5", "2"]
                ((["id", "status"] : List String).get ⟨i, hi⟩)) =
            .ok (values.get ⟨i, hi'⟩)) :=
  ⟨by decide, c5_header_order ["id", "status"] ["5", "2"] "t" (by decide)⟩

/-- The content found at the output path after a run whose input exists: a
function of the input content and the table name alone. -/
def outputContentFor (content table : String) : String :=
  if (parseCSV content).1 = [] then ""
  else
    match mapExcept (formatRow (parseCSV content).1) (parseCSV content).2 with
    | .error _ => headerLine table (parseCSV content).1
    | .ok tuples => headerLine table (parseCSV content).1 ++ joinSep ",\n" tuples ++ ";"

theorem read_output_after_run (fs : FS) (p o t content : String)
    (hread : fs.read p = some content) :
    FS.read (csv_to_sql_insert fs p o t).1 o = some (outputContentFor content t) := by
  by_cases hcols : (parseCSV content).1 = []
  · simp [csv_to_sql_insert, hread, hcols, outputContentFor, FS.read_write_self]
  · cases hm : mapExcept (formatRow (parseCSV content).1) (parseCSV content).2 with
    | error e =>
      simp [csv_to_sql_insert, hread, hcols, hm, outputContentFor, FS.read_write_self]
    | ok tuples =>
      simp [csv_to_sql_insert, hread, hcols, hm, outputContentFor, FS.read_write_self]

/-- C9: the converter is deterministic: two runs whose input files hold the
same content, with the same table name, leave byte-identical content at
their respective output paths. -/
theorem c9_deterministic (fs1 fs2 : FS) (p1 p2 o1 o2 t content : String)
    (h1 : fs1.read p1 = some content) (h2 : fs2.read p2 = some content) :
    FS.read (csv_to_sql_insert fs1 p1 o1 t).1 o1 =
      FS.read (csv_to_sql_insert fs2 p2 o2 t).1 o2 := by
  rw [read_output_after_run fs1 p1 o1 t content h1,
    read_output_after_run fs2 p2 o2 t content h2]

theorem c9_deterministic_witness :
    (FS.read [("a.csv", "id;rate\n4;2")] "a.csv" = some "id;rate\n4;2" ∧
      FS.read [("b.csv", "id;rate\n4;2"), ("x", "y")] "b.csv" = some "id;rate\n4;2") ∧
    FS.read (csv_to_sql_insert [("a.csv", "id;rate\n4;2")] "a.csv" "a.sql" "t").1 "a.sql" =
      FS.read
        (csv_to_sql_insert [("b.csv", "id;rate\n4;2"), ("x", "y")] "b.csv" "b.sql" "t").1
        "b.sql" :=
  ⟨⟨by decide, by decide⟩,
    c9_deterministic [("a.csv", "id;rate\n4;2")] [("b.csv", "id;rate\n4;2"), ("x", "y")]
      "a.csv" "b.csv" "a.sql" "b.sql" "t" "id;rate\n4;2" (by decide) (by decide)⟩
